import Mathlib

/-!
Shallow embedding of the WASAPI backend of `norse-audir`
(`src/audir/src/wasapi/mod.rs`), covering the data model, the format
negotiator, the physical-device registry, device creation, the event
queue, and the buffer acquire/submit/release cycle.  Native OS calls
(WaitForSingleObject, GetCurrentPadding, GetBufferSize, GetMixFormat,
GetDefaultAudioEndpoint, ...) are modelled as inputs supplied through
explicit environment records; panics (`unwrap` on `None`,
`unimplemented!`, `HashMap` indexing on a missing key) are modelled by a
dedicated `panicked` outcome.
-/

namespace audir

/-- Windows constant: `WAVE_FORMAT_EXTENSIBLE` format tag. -/
def WAVE_FORMAT_EXTENSIBLE : Nat := 0xFFFE

/-- Windows constant: speaker-position bit for the front-left channel. -/
def SPEAKER_FRONT_LEFT : Nat := 0x1

/-- Windows constant: speaker-position bit for the front-right channel. -/
def SPEAKER_FRONT_RIGHT : Nat := 0x2

/-- Windows constant: speaker-position bit for the front-center channel. -/
def SPEAKER_FRONT_CENTER : Nat := 0x4

/-- Windows constant: device state flag for an active endpoint. -/
def DEVICE_STATE_ACTIVE : Nat := 0x1

/-- Windows constant: `WaitForSingleObject` result when the object was signaled. -/
def WAIT_OBJECT_0 : Nat := 0x0

/-- Windows constant: `WaitForSingleObject` result when the wait timed out. -/
def WAIT_TIMEOUT : Nat := 0x102

/-- Media-format GUIDs compared by the negotiator.  Only the IEEE-float
subformat is ever produced by the source; all other GUID values are
collapsed into `otherGuid` carrying an arbitrary tag. -/
inductive KsGuid where
| ieeeFloat
| otherGuid (n : Nat)
deriving DecidableEq, Repr

namespace api

/-- Modelled from the spec: error kinds of the `api` module (section 7):
Validation, NotFound, Timeout, Unavailable.  The `api` crate source is
not part of the provided tree; only `Validation` appears in the WASAPI
source itself. -/
inductive Error where
| validation
| notFound
| timeout
| unavailable
deriving DecidableEq, Repr

/-- Modelled from the spec: sample formats of `api::Format` — 32-bit
float, 32-bit unsigned, and further enumerated formats collapsed into
`otherFormat` (the source matches `F32`, `U32` and a catch-all `_`). -/
inductive Format where
| f32
| u32
| otherFormat
deriving DecidableEq, Repr

/-- Modelled from the spec: `api::ChannelMask` is a set of named speaker
positions, represented as a bitmask.  Bit values are chosen distinct;
only membership and union are ever used. -/
def ChannelMask := Nat

/-- Modelled from the spec: the `FRONT_LEFT` channel-mask bit. -/
def ChannelMask.FRONT_LEFT : Nat := 0x1

/-- Modelled from the spec: the `FRONT_RIGHT` channel-mask bit. -/
def ChannelMask.FRONT_RIGHT : Nat := 0x2

/-- Modelled from the spec: the `FRONT_CENTER` channel-mask bit. -/
def ChannelMask.FRONT_CENTER : Nat := 0x4

/-- Modelled from the spec: `api::StreamFlags::INPUT` capability bit. -/
def StreamFlags.INPUT : Nat := 0x1

/-- Modelled from the spec: `api::StreamFlags::OUTPUT` capability bit. -/
def StreamFlags.OUTPUT : Nat := 0x2

/-- Fuel-bounded binary digit sum; the fuel is instantiated with the
number itself, which bounds the number of halvings. -/
def popcountAux : Nat → Nat → Nat
| 0, _ => 0
| _ + 1, 0 => 0
| fuel + 1, n + 1 => (n + 1) % 2 + popcountAux fuel ((n + 1) / 2)

/-- Modelled from the spec: derived channel count of a channel mask is
popcount(channel mask). -/
def popcount (n : Nat) : Nat := popcountAux n n

/-- Modelled from the spec: `api::FrameDesc` — sample format, channel
mask, sample rate. -/
structure FrameDesc where
  format : Format
  channels : Nat
  sample_rate : Nat
deriving DecidableEq, Repr

/-- Modelled from the spec: `FrameDesc::num_channels` is the popcount of
the channel mask. -/
def FrameDesc.num_channels (fd : FrameDesc) : Nat := popcount fd.channels

/-- Modelled from the spec: `api::SampleDesc` — format and sample rate
(channels are supplied separately per direction). -/
structure SampleDesc where
  format : Format
  sample_rate : Nat
deriving DecidableEq, Repr

/-- Modelled from the spec: `api::SharingMode` — Exclusive or
Concurrent (shared). -/
inductive SharingMode where
| exclusive
| concurrent
deriving DecidableEq, Repr

/-- Modelled from the spec: `api::Channels` — a pair of channel masks,
one for input, one for output. -/
structure Channels where
  input : Nat
  output : Nat
deriving DecidableEq, Repr

/-- Modelled from the spec: `api::StreamProperties` — negotiated channel
mask, sample rate and buffer capacity in frames. -/
structure StreamProperties where
  channels : Nat
  sample_rate : Nat
  buffer_size : Nat
deriving DecidableEq, Repr

/-- Modelled from the spec: `api::StreamBuffers` — an acquired window of
buffer memory; the raw input/output pointers are outside the embedding,
the frame count is kept. -/
structure StreamBuffers where
  frames : Nat
deriving DecidableEq, Repr

end api

/-- Embedding of the `WAVEFORMATEX` header fields populated by
`map_frame_desc` and read by `map_waveformat`. -/
structure WAVEFORMATEX where
  wFormatTag : Nat
  nChannels : Nat
  nSamplesPerSec : Nat
  nAvgBytesPerSec : Nat
  nBlockAlign : Nat
  wBitsPerSample : Nat
  cbSize : Nat
deriving DecidableEq, Repr

/-- Embedding of `WAVEFORMATEXTENSIBLE`: the `WAVEFORMATEX` header plus
the valid-bits field, the channel bitmask and the subformat GUID. -/
structure WAVEFORMATEXTENSIBLE where
  Format : WAVEFORMATEX
  Samples : Nat
  dwChannelMask : Nat
  SubFormat : KsGuid
deriving DecidableEq, Repr

/-- Outcome of a fallible call in the embedding: Rust `Ok`, Rust `Err`,
or a panic (`unwrap` on `None`, `unimplemented!`, index on a missing
key). -/
inductive Outcome (α : Type) where
| ok (a : α)
| err (e : api.Error)
| panicked
deriving DecidableEq, Repr

/-- Embedding of `map_frame_desc` (src/audir/src/wasapi/mod.rs:116):
`F32` maps to an extensible IEEE-float descriptor, `U32` returns `None`,
every other format hits `unimplemented!()` (modelled as `panicked`). -/
def map_frame_desc (frame_desc : api.FrameDesc) : Outcome (Option WAVEFORMATEXTENSIBLE) :=
  match frame_desc.format with
  | api.Format.u32 => Outcome.ok none
  | api.Format.otherFormat => Outcome.panicked
  | api.Format.f32 =>
    let bytes_per_sample : Nat := 4
    let sub_format := KsGuid.ieeeFloat
    let channel_mask :=
      (if frame_desc.channels &&& api.ChannelMask.FRONT_LEFT ≠ 0 then SPEAKER_FRONT_LEFT else 0) |||
      (if frame_desc.channels &&& api.ChannelMask.FRONT_RIGHT ≠ 0 then SPEAKER_FRONT_RIGHT else 0) |||
      (if frame_desc.channels &&& api.ChannelMask.FRONT_CENTER ≠ 0 then SPEAKER_FRONT_CENTER else 0)
    let num_channels := frame_desc.num_channels
    let bits_per_sample := 8 * bytes_per_sample
    Outcome.ok (some
      { Format :=
          { wFormatTag := WAVE_FORMAT_EXTENSIBLE
            nChannels := num_channels
            nSamplesPerSec := frame_desc.sample_rate
            nAvgBytesPerSec := num_channels * frame_desc.sample_rate * bytes_per_sample
            nBlockAlign := num_channels * bytes_per_sample
            wBitsPerSample := bits_per_sample
            cbSize := 22 }
        Samples := bits_per_sample
        dwChannelMask := channel_mask
        SubFormat := sub_format })

/-- Embedding of `map_waveformat` (src/audir/src/wasapi/mod.rs:162):
only the extensible layout with the IEEE-float subformat and 32 valid
bits decodes; everything else fails with `Validation`. -/
def map_waveformat (format : WAVEFORMATEXTENSIBLE) : Except api.Error api.FrameDesc :=
  if format.Format.wFormatTag = WAVE_FORMAT_EXTENSIBLE then
    if format.SubFormat = KsGuid.ieeeFloat ∧ format.Samples = 32 then
      let channels :=
        (if format.dwChannelMask &&& SPEAKER_FRONT_LEFT ≠ 0 then api.ChannelMask.FRONT_LEFT else 0) |||
        (if format.dwChannelMask &&& SPEAKER_FRONT_RIGHT ≠ 0 then api.ChannelMask.FRONT_RIGHT else 0) |||
        (if format.dwChannelMask &&& SPEAKER_FRONT_CENTER ≠ 0 then api.ChannelMask.FRONT_CENTER else 0)
      Except.ok
        { format := api.Format.f32
          channels := channels
          sample_rate := format.Format.nSamplesPerSec }
    else
      Except.error api.Error.validation
  else
    Except.error api.Error.validation

/-- Embedding of `map_sharing_mode` (src/audir/src/wasapi/mod.rs:197);
`AUDCLNT_SHAREMODE_SHARED = 0`, `AUDCLNT_SHAREMODE_EXCLUSIVE = 1`. -/
def map_sharing_mode (sharing : api.SharingMode) : Nat :=
  match sharing with
  | api.SharingMode.exclusive => 1
  | api.SharingMode.concurrent => 0

/-- Embedding of the registry entry `PhysicalDevice`
(src/audir/src/wasapi/mod.rs:206): endpoint state, whether an
`IAudioClient` was activated, and the capability flags.  The raw COM
endpoint pointer is outside the embedding. -/
structure PhysicalDevice where
  state : Nat
  audio_client : Bool
  streams : Nat
deriving DecidableEq, Repr

/-- The registry `PhysialDeviceMap` keyed by `PhysicalDeviceId`
(src/audir/src/wasapi/mod.rs:222), embedded as an association list with
one binding per key (the `HashMap` invariant). -/
abbrev Registry := List (String × PhysicalDevice)

/-- First binding for a key, the `HashMap` lookup. -/
def lookupReg : Registry → String → Option PhysicalDevice
| [], _ => none
| (k, d) :: rest, id => if k = id then some d else lookupReg rest id

/-- Number of bindings for a key in the registry. -/
def countKey (reg : Registry) (id : String) : Nat :=
  (reg.filter (fun e => e.1 = id)).length

/-- The entry built by the `or_insert_with` closure
(src/audir/src/wasapi/mod.rs:533): the audio client is activated only
when the endpoint state is active. -/
def newPhysicalDevice (state flags : Nat) : PhysicalDevice :=
  { state := state
    audio_client := state &&& DEVICE_STATE_ACTIVE ≠ 0
    streams := flags }

/-- Embedding of one loop iteration of
`enumerate_physical_devices_by_flow` (src/audir/src/wasapi/mod.rs:528):
`entry(id).and_modify(|d| d.streams |= flags).or_insert_with(new)` —
if the key exists its flags are ORed with the pass's flags (state kept),
otherwise a fresh entry is inserted. -/
def regUpdate : Registry → String → Nat → Nat → Registry
| [], id, state, flags => [(id, newPhysicalDevice state flags)]
| (k, d) :: rest, id, state, flags =>
  if k = id then (k, { d with streams := d.streams ||| flags }) :: rest
  else (k, d) :: regUpdate rest id state flags

/-- Embedding of `Instance::enumerate_physical_devices_by_flow`
(src/audir/src/wasapi/mod.rs:486): fold the per-direction enumeration
results (native id, state) into the registry with the direction's
capability flag. -/
def enumerate_physical_devices_by_flow : Registry → List (String × Nat) → Nat → Registry
| reg, [], _ => reg
| reg, item :: rest, flags =>
  enumerate_physical_devices_by_flow (regUpdate reg item.1 item.2 flags) rest flags

/-- Embedding of the registry construction inside `Instance::create`
(src/audir/src/wasapi/mod.rs:270): an empty map filled by a capture pass
(`INPUT` flag) followed by a render pass (`OUTPUT` flag). -/
def instance_registry (capture render : List (String × Nat)) : Registry :=
  enumerate_physical_devices_by_flow
    (enumerate_physical_devices_by_flow [] capture api.StreamFlags.INPUT)
    render api.StreamFlags.OUTPUT

/-- The filter predicate of `Instance::enumerate_physical_devices`:
`device.state & DEVICE_STATE_ACTIVE != 0`. -/
def isActive (e : String × PhysicalDevice) : Bool :=
  e.2.state &&& DEVICE_STATE_ACTIVE ≠ 0

/-- Embedding of `Instance::enumerate_physical_devices`
(src/audir/src/wasapi/mod.rs:282): the registry entries whose state has
the active bit set. -/
def enumerate_physical_devices (reg : Registry) : Registry :=
  reg.filter isActive

/-- Embedding of `Instance::default_physical_input_device`
(src/audir/src/wasapi/mod.rs:295).  The OS default-endpoint query is an
input: `none` models a null device pointer (mapped to `None`); a
returned id is looked up with `self.physical_devices[&id]`, which
panics when the id has no registry entry. -/
def default_physical_input_device (reg : Registry) (os_default : Option String) :
    Outcome (Option PhysicalDevice) :=
  match os_default with
  | none => Outcome.ok none
  | some id =>
    match lookupReg reg id with
    | some d => Outcome.ok (some d)
    | none => Outcome.panicked

/-- Embedding of `Instance::default_physical_output_device`
(src/audir/src/wasapi/mod.rs:308), identical shape to the input query
with the render data flow. -/
def default_physical_output_device (reg : Registry) (os_default : Option String) :
    Outcome (Option PhysicalDevice) :=
  match os_default with
  | none => Outcome.ok none
  | some id =>
    match lookupReg reg id with
    | some d => Outcome.ok (some d)
    | none => Outcome.panicked

/-- Embedding of the hot-plug `Event` enum
(src/audir/src/wasapi/mod.rs:37); `EDataFlow` is a numeric tag
(`eRender = 0`, `eCapture = 1`). -/
inductive Event where
| added (device : String)
| removed (device : String)
| changed (device : String) (state : Nat)
| defaultChanged (device : String) (flow : Nat)
deriving DecidableEq, Repr

/-- Trace of one `poll_events` call: the events passed to the caller's
handler, and the returned result. -/
structure PollTrace where
  handler_calls : List Event
  result : Outcome Unit
deriving DecidableEq, Repr

/-- Embedding of the drain loop of `Instance::poll_events`
(src/audir/src/wasapi/mod.rs:444): each `try_recv`-ed event is consumed
by `dbg!` only — the user callback is never invoked, so the list of
handler invocations stays empty. -/
def poll_events_drain : List Event → List Event
| [] => []
| _event :: rest => poll_events_drain rest

/-- Embedding of `Instance::poll_events` (src/audir/src/wasapi/mod.rs:440)
on the queued events: drains the queue and returns `Ok(())`. -/
def poll_events (queue : List Event) : PollTrace :=
  { handler_calls := poll_events_drain queue
    result := Outcome.ok () }

/-- Embedding of the `Fence` wrapper (src/src/wasapi/mod.rs:478, the
sibling source file in this repository that carries the implementation
inlined): `Fence::create(manual_reset, initial_state)` wraps
`CreateEventA`; the two creation flags are the retained state. -/
structure Fence where
  manual_reset : Bool
  initial_state : Bool
deriving DecidableEq, Repr

/-- Embedding of `DeviceStream` (src/audir/src/wasapi/mod.rs:568): the
direction-tagged buffer-exchange handle; the output variant carries the
negotiated buffer capacity, the raw COM service pointers are outside
the embedding. -/
inductive DeviceStream where
| input
| output (buffer_size : Nat)
deriving DecidableEq, Repr

/-- Embedding of `Stream` (src/audir/src/wasapi/mod.rs:578). -/
structure Stream where
  properties : api.StreamProperties
deriving DecidableEq, Repr

/-- Embedding of `Device` (src/audir/src/wasapi/mod.rs:581): the Fence,
the direction-tagged stream handle and the cached `Stream`; the raw
`IAudioClient` pointer and the user callback are outside the embedding
(the callback's invocations are recorded by `submit_buffers`). -/
structure Device where
  fence : Fence
  device_stream : DeviceStream
  stream : Stream
deriving DecidableEq, Repr

/-- Native allocations and service resolutions performed by
`create_device`, in program order: `Fence::create`, the
`IAudioClient` stream-open call, `SetEventHandle`, and the
capture/render `GetService` resolution. -/
inductive Alloc where
| fenceCreate
| clientStreamOpen
| setEventHandle
| captureService
| renderService
deriving DecidableEq, Repr

/-- Environment for `create_device`: the answers of the native
`GetBufferSize` and `GetMixFormat` queries on the audio client. -/
structure CreateEnv where
  buffer_size : Nat
  mix_format : WAVEFORMATEXTENSIBLE
deriving DecidableEq, Repr

/-- Modelled from the spec: `api::DeviceDesc` — which physical device,
a sharing mode, and a sample descriptor (format + rate). -/
structure DeviceDesc where
  physical_device : PhysicalDevice
  sharing : api.SharingMode
  sample_desc : api.SampleDesc
deriving DecidableEq, Repr

/-- Embedding of `Instance::create_device`
(src/audir/src/wasapi/mod.rs:350), returning the outcome together with
the trace of native allocations in program order.  Control flow of the
source: the duplex check fires first (before any allocation); then the
Fence is created; `map_frame_desc(..).unwrap()` panics on `None`
(unsupported format) or on `unimplemented!` formats; the input branch
resolves the capture service and then hits `unimplemented!()`; the
output branch resolves the render service, queries buffer size and mix
format and `unwrap`s `map_waveformat` for the `Stream` properties. -/
def create_device (desc : DeviceDesc) (channels : api.Channels) (env : CreateEnv) :
    Outcome Device × List Alloc :=
  if channels.input ≠ 0 ∧ channels.output ≠ 0 then
    (Outcome.err api.Error.validation, [])
  else
    let fence : Fence := { manual_reset := false, initial_state := false }
    let frame_desc : api.FrameDesc :=
      { format := desc.sample_desc.format
        channels := if channels.input ≠ 0 then channels.input else channels.output
        sample_rate := desc.sample_desc.sample_rate }
    match map_frame_desc frame_desc with
    | Outcome.panicked => (Outcome.panicked, [Alloc.fenceCreate])
    | Outcome.err e => (Outcome.err e, [Alloc.fenceCreate])
    | Outcome.ok none => (Outcome.panicked, [Alloc.fenceCreate])
    | Outcome.ok (some _mix_format) =>
      if channels.input ≠ 0 then
        (Outcome.panicked,
         [Alloc.fenceCreate, Alloc.clientStreamOpen, Alloc.setEventHandle,
          Alloc.captureService])
      else
        match map_waveformat env.mix_format with
        | Except.error _ =>
          (Outcome.panicked,
           [Alloc.fenceCreate, Alloc.clientStreamOpen, Alloc.setEventHandle,
            Alloc.renderService])
        | Except.ok mix_desc =>
          (Outcome.ok
             { fence := fence
               device_stream := DeviceStream.output env.buffer_size
               stream :=
                 { properties :=
                     { channels := mix_desc.channels
                       sample_rate := mix_desc.sample_rate
                       buffer_size := env.buffer_size } } },
           [Alloc.fenceCreate, Alloc.clientStreamOpen, Alloc.setEventHandle,
            Alloc.renderService])

/-- Environment for the buffer cycle: the `WaitForSingleObject` result
of the fence wait, the frame count the capture client reports for the
next packet, and the render client's current padding. -/
structure RtEnv where
  wait_result : Nat
  packet_frames : Nat
  padding : Nat
deriving DecidableEq, Repr

/-- Embedding of `Fence::wait` (src/src/wasapi/mod.rs:493): returns the
`WaitForSingleObject` status supplied by the environment. -/
def fence_wait (_fence : Fence) (env : RtEnv) (_timeout_ms : Nat) : Nat :=
  env.wait_result

/-- Unsigned 32-bit wrapping subtraction, the release-mode semantics of
`buffer_size - padding` on `u32` operands (both < 2^32). -/
def u32_wrap_sub (a b : Nat) : Nat :=
  (a + (2 ^ 32 - b % 2 ^ 32)) % 2 ^ 32

/-- Checked 32-bit subtraction: `none` models the debug-mode overflow
panic of `buffer_size - padding` when the subtrahend is larger. -/
def u32_checked_sub (a b : Nat) : Option Nat :=
  if b ≤ a then some (a - b) else none

/-- Embedding of `Device::acquire_buffers`
(src/audir/src/wasapi/mod.rs:599).  The fence-wait status is bound and
then discarded, exactly as in the source (`self.fence.wait(timeout_ms);`
with the result unused).  Input: the next packet's frame count from
`GetBuffer`.  Output: `buffer_size - padding` frames as unchecked `u32`
subtraction. -/
def acquire_buffers (d : Device) (env : RtEnv) (timeout_ms : Nat) :
    Outcome api.StreamBuffers :=
  let _wait_status := fence_wait d.fence env timeout_ms
  match d.device_stream with
  | DeviceStream.input =>
    Outcome.ok { frames := env.packet_frames }
  | DeviceStream.output buffer_size =>
    let len := u32_wrap_sub buffer_size env.padding
    Outcome.ok { frames := len }

/-- Embedding of `Device::release_buffers`
(src/audir/src/wasapi/mod.rs:649): forwards the frame count to the
client's `ReleaseBuffer` and returns `Ok(())`; the second component
records the frame count handed to the backend. -/
def release_buffers (_d : Device) (num_frames : Nat) : Outcome Unit × Nat :=
  (Outcome.ok (), num_frames)

/-- Trace of one `submit_buffers` call: result, the frame count passed
to the user callback (if it was reached), and the frame count released
to the backend (if release was reached). -/
structure SubmitTrace where
  result : Outcome Unit
  callback_frames : Option Nat
  released_frames : Option Nat
deriving DecidableEq, Repr

/-- Embedding of `Device::submit_buffers`
(src/audir/src/wasapi/mod.rs:671): acquire (propagating its error),
invoke the callback with the acquired buffers, release exactly
`buffers.frames`. -/
def submit_buffers (d : Device) (env : RtEnv) (timeout_ms : Nat) : SubmitTrace :=
  match acquire_buffers d env timeout_ms with
  | Outcome.ok buffers =>
    let released := release_buffers d buffers.frames
    { result := released.1
      callback_frames := some buffers.frames
      released_frames := some released.2 }
  | Outcome.err e =>
    { result := Outcome.err e, callback_frames := none, released_frames := none }
  | Outcome.panicked =>
    { result := Outcome.panicked, callback_frames := none, released_frames := none }

/-! Concrete fixtures used by the theorems below. -/

/-- A stereo float FrameDesc: F32, FRONT_LEFT | FRONT_RIGHT, 48000 Hz. -/
def frameDescStereo48k : api.FrameDesc :=
  { format := api.Format.f32
    channels := api.ChannelMask.FRONT_LEFT ||| api.ChannelMask.FRONT_RIGHT
    sample_rate := 48000 }

/-- The native descriptor `map_frame_desc` produces for
`frameDescStereo48k`. -/
def wfxStereo48k : WAVEFORMATEXTENSIBLE :=
  { Format :=
      { wFormatTag := WAVE_FORMAT_EXTENSIBLE
        nChannels := 2
        nSamplesPerSec := 48000
        nAvgBytesPerSec := 384000
        nBlockAlign := 8
        wBitsPerSample := 32
        cbSize := 22 }
    Samples := 32
    dwChannelMask := SPEAKER_FRONT_LEFT ||| SPEAKER_FRONT_RIGHT
    SubFormat := KsGuid.ieeeFloat }

/-- A concrete creation environment: 256-frame buffer and a stereo
44100 Hz IEEE-float mix format. -/
def sampleCreateEnv : CreateEnv :=
  { buffer_size := 256
    mix_format :=
      { Format :=
          { wFormatTag := WAVE_FORMAT_EXTENSIBLE
            nChannels := 2
            nSamplesPerSec := 44100
            nAvgBytesPerSec := 352800
            nBlockAlign := 8
            wBitsPerSample := 32
            cbSize := 22 }
        Samples := 32
        dwChannelMask := 3
        SubFormat := KsGuid.ieeeFloat } }

/-- A concrete F32 device description on an active dual-capability
physical device. -/
def sampleDeviceDescF32 : DeviceDesc :=
  { physical_device := newPhysicalDevice DEVICE_STATE_ACTIVE 3
    sharing := api.SharingMode.concurrent
    sample_desc := { format := api.Format.f32, sample_rate := 48000 } }

/-- A concrete U32 device description, differing from
`sampleDeviceDescF32` only in the sample format. -/
def sampleDeviceDescU32 : DeviceDesc :=
  { physical_device := newPhysicalDevice DEVICE_STATE_ACTIVE 3
    sharing := api.SharingMode.concurrent
    sample_desc := { format := api.Format.u32, sample_rate := 48000 } }

/-- A concrete output Device with a 256-frame negotiated capacity. -/
def sampleOutputDevice : Device :=
  { fence := { manual_reset := false, initial_state := false }
    device_stream := DeviceStream.output 256
    stream :=
      { properties := { channels := 3, sample_rate := 48000, buffer_size := 256 } } }

/-- A runtime environment in which the fence wait timed out and the
render client reports 100 frames of padding. -/
def timedOutEnv : RtEnv :=
  { wait_result := WAIT_TIMEOUT, packet_frames := 0, padding := 100 }

/-! Helper lemmas about the registry. -/

/-- First state recorded for an id in a per-direction enumeration
result list. -/
def firstState : List (String × Nat) → String → Option Nat
| [], _ => none
| (k, s) :: rest, id => if k = id then some s else firstState rest id

theorem lor_lor_self (x f : Nat) : x ||| f ||| f = x ||| f := by
  apply Nat.eq_of_testBit_eq
  intro i
  simp

theorem countKey_cons (k : String) (d : PhysicalDevice) (tl : Registry) (id : String) :
    countKey ((k, d) :: tl) id = (if k = id then 1 else 0) + countKey tl id := by
  by_cases h : k = id <;> simp [countKey, List.filter_cons, h, Nat.add_comm]

theorem countKey_nil (id : String) : countKey [] id = 0 := rfl

theorem lookupReg_regUpdate_self (reg : Registry) (id : String) (s f : Nat) :
    lookupReg (regUpdate reg id s f) id =
      some (match lookupReg reg id with
            | some d => { d with streams := d.streams ||| f }
            | none => newPhysicalDevice s f) := by
  induction reg with
  | nil => simp [regUpdate, lookupReg]
  | cons hd tl ih =>
    obtain ⟨k, d⟩ := hd
    by_cases hk : k = id
    · subst hk
      simp [regUpdate, lookupReg]
    · simp [regUpdate, lookupReg, hk, ih]

theorem lookupReg_regUpdate_other (reg : Registry) (id k : String) (s f : Nat)
    (h : k ≠ id) :
    lookupReg (regUpdate reg k s f) id = lookupReg reg id := by
  induction reg with
  | nil => simp [regUpdate, lookupReg, h]
  | cons hd tl ih =>
    obtain ⟨k', d⟩ := hd
    by_cases hk : k' = k
    · subst hk
      simp [regUpdate, lookupReg, h]
    · by_cases hk2 : k' = id
      · subst hk2
        simp [regUpdate, lookupReg, hk]
      · simp [regUpdate, lookupReg, hk, hk2, ih]

theorem lookupReg_enumFlow_not_mem (l : List (String × Nat)) (reg : Registry)
    (f : Nat) (id : String) (h : firstState l id = none) :
    lookupReg (enumerate_physical_devices_by_flow reg l f) id = lookupReg reg id := by
  induction l generalizing reg with
  | nil => simp [enumerate_physical_devices_by_flow]
  | cons hd tl ih =>
    obtain ⟨k, s⟩ := hd
    by_cases hk : k = id
    · simp [firstState, hk] at h
    · simp only [firstState, hk, if_false] at h
      rw [enumerate_physical_devices_by_flow, ih _ h,
        lookupReg_regUpdate_other _ _ _ _ _ hk]

theorem lookupReg_enumFlow_mem_some (l : List (String × Nat)) (reg : Registry)
    (f : Nat) (id : String) (d : PhysicalDevice)
    (h : (firstState l id).isSome = true) (hr : lookupReg reg id = some d) :
    lookupReg (enumerate_physical_devices_by_flow reg l f) id =
      some { d with streams := d.streams ||| f } := by
  induction l generalizing reg d with
  | nil => simp [firstState] at h
  | cons hd tl ih =>
    obtain ⟨k, st⟩ := hd
    rw [enumerate_physical_devices_by_flow]
    by_cases hk : k = id
    · subst hk
      have hupd : lookupReg (regUpdate reg k st f) k = some { d with streams := d.streams ||| f } := by
        rw [lookupReg_regUpdate_self, hr]
      cases htl : firstState tl k with
      | none =>
        rw [lookupReg_enumFlow_not_mem _ _ _ _ htl, hupd]
      | some s2 =>
        rw [ih _ _ (by simp [htl]) hupd]
        simp [lor_lor_self]
    · simp only [firstState, hk, if_false] at h
      exact ih _ _ h (by rw [lookupReg_regUpdate_other _ _ _ _ _ hk]; exact hr)

theorem lookupReg_enumFlow_mem_none (l : List (String × Nat)) (reg : Registry)
    (f : Nat) (id : String) (s : Nat)
    (h : firstState l id = some s) (hr : lookupReg reg id = none) :
    lookupReg (enumerate_physical_devices_by_flow reg l f) id =
      some (newPhysicalDevice s f) := by
  induction l generalizing reg with
  | nil => simp [firstState] at h
  | cons hd tl ih =>
    obtain ⟨k, st⟩ := hd
    rw [enumerate_physical_devices_by_flow]
    by_cases hk : k = id
    · subst hk
      have hst : st = s := by simpa [firstState] using h
      subst hst
      have hupd : lookupReg (regUpdate reg k st f) k = some (newPhysicalDevice st f) := by
        rw [lookupReg_regUpdate_self, hr]
      cases htl : firstState tl k with
      | none =>
        rw [lookupReg_enumFlow_not_mem _ _ _ _ htl, hupd]
      | some s2 =>
        rw [lookupReg_enumFlow_mem_some _ _ _ _ _ (by simp [htl]) hupd]
        simp [newPhysicalDevice, lor_lor_self]
    · simp only [firstState, hk, if_false] at h
      exact ih _ h (by rw [lookupReg_regUpdate_other _ _ _ _ _ hk]; exact hr)

theorem countKey_regUpdate (reg : Registry) (k id : String) (s f : Nat) :
    countKey (regUpdate reg k s f) id =
      if id = k then max (countKey reg id) 1 else countKey reg id := by
  induction reg with
  | nil =>
    by_cases h : id = k
    · subst h
      simp [regUpdate, countKey_cons, countKey_nil]
    · simp [regUpdate, countKey_cons, countKey_nil, h, Ne.symm h]
  | cons hd tl ih =>
    obtain ⟨k', d⟩ := hd
    by_cases hk : k' = k
    · subst hk
      by_cases hid : id = k'
      · subst hid
        simp [regUpdate, countKey_cons]
      · simp [regUpdate, countKey_cons, hid, Ne.symm hid]
    · by_cases hid : id = k'
      · subst hid
        simp [regUpdate, hk, countKey_cons, ih]
      · simp [regUpdate, hk, countKey_cons, Ne.symm hid, ih]

theorem countKey_enumFlow (l : List (String × Nat)) (reg : Registry)
    (f : Nat) (id : String) :
    countKey (enumerate_physical_devices_by_flow reg l f) id =
      if (firstState l id).isSome then max (countKey reg id) 1
      else countKey reg id := by
  induction l generalizing reg with
  | nil => simp [enumerate_physical_devices_by_flow, firstState]
  | cons hd tl ih =>
    obtain ⟨k, st⟩ := hd
    rw [enumerate_physical_devices_by_flow, ih]
    by_cases hk : k = id
    · subst hk
      rw [countKey_regUpdate, if_pos rfl]
      have hfs : firstState ((k, st) :: tl) k = some st := by simp [firstState]
      rw [hfs]
      simp only [Option.isSome_some, if_true]
      cases hb : (firstState tl k).isSome <;> simp [hb]
    · have hik : ¬ id = k := fun hh => hk hh.symm
      simp [firstState, hk, countKey_regUpdate, hik]

theorem countKey_filter_le (p : String × PhysicalDevice → Bool) (reg : Registry)
    (id : String) :
    countKey (reg.filter p) id ≤ countKey reg id := by
  induction reg with
  | nil => simp [countKey_nil]
  | cons hd tl ih =>
    obtain ⟨k, d⟩ := hd
    rw [List.filter_cons]
    by_cases hp : p (k, d)
    · simp only [hp, if_true, countKey_cons]
      omega
    · simp only [hp, Bool.false_eq_true, if_false, countKey_cons]
      omega

theorem countKey_enumerate_active (reg : Registry) (id : String) (d : PhysicalDevice)
    (h1 : countKey reg id = 1) (h2 : lookupReg reg id = some d)
    (h3 : d.state &&& DEVICE_STATE_ACTIVE ≠ 0) :
    countKey (enumerate_physical_devices reg) id = 1 := by
  induction reg with
  | nil => simp [lookupReg] at h2
  | cons hd tl ih =>
    obtain ⟨k, e⟩ := hd
    by_cases hk : k = id
    · subst hk
      have he : e = d := by simpa [lookupReg] using h2
      subst he
      have htl : countKey tl k = 0 := by
        rw [countKey_cons, if_pos rfl] at h1
        omega
      have hfil : countKey (tl.filter isActive) k = 0 :=
        Nat.le_zero.mp (htl ▸ countKey_filter_le isActive tl k)
      have hact : isActive (k, e) = true := by
        simp [isActive, h3]
      rw [enumerate_physical_devices, List.filter_cons, hact, if_pos rfl,
        countKey_cons, if_pos rfl]
      omega
    · rw [countKey_cons, if_neg hk, Nat.zero_add] at h1
      have h2' : lookupReg tl id = some d := by simpa [lookupReg, hk] using h2
      have htl := ih h1 h2'
      rw [enumerate_physical_devices, List.filter_cons]
      rw [enumerate_physical_devices] at htl
      by_cases hp : isActive (k, e) = true
      · rw [hp, if_pos rfl, countKey_cons, if_neg hk, Nat.zero_add]
        exact htl
      · rw [if_neg (by simpa using hp)]
        exact htl

/-! Claim theorems. -/

/-- C1: the claim says that when the Fence wait elapses unsignaled,
`submit_buffers` returns the `Timeout` error.  On the code this fails:
`acquire_buffers` discards the `WaitForSingleObject` status, so even
when the wait reports `WAIT_TIMEOUT` the call proceeds to acquire the
buffer and returns `Ok` — `Error::Timeout` is never produced.  This
theorem evaluates the embedding at such a failing input. -/
theorem C1_submit_buffers_ignores_fence_timeout :
    fence_wait sampleOutputDevice.fence timedOutEnv 100 = WAIT_TIMEOUT ∧
    submit_buffers sampleOutputDevice timedOutEnv 100 =
      { result := Outcome.ok ()
        callback_frames := some 156
        released_frames := some 156 } ∧
    (submit_buffers sampleOutputDevice timedOutEnv 100).result ≠
      Outcome.err api.Error.timeout := by
  refine ⟨rfl, by decide, by decide⟩

/-- C2: the claim says `poll_events` invokes the handler once per
queued event in FIFO order.  On the code this fails: the drain loop
passes each event to `dbg!` only and never calls the `_callback`
parameter, so the handler is invoked zero times for any queue.  The
no-op part of the claim (empty queue, zero invocations, success)
holds. -/
theorem C2_poll_events_never_invokes_handler :
    poll_events [Event.added "dev0", Event.removed "dev0"] =
      { handler_calls := [], result := Outcome.ok () } ∧
    (poll_events [Event.added "dev0"]).handler_calls = [] ∧
    poll_events [] = { handler_calls := [], result := Outcome.ok () } :=
  ⟨rfl, rfl, rfl⟩

/-- C3: `create_device` with both channel masks non-empty fails with
`Validation`, and the rejection happens before any native resource
(fence or stream handle) is allocated: the allocation trace is
empty. -/
theorem C3_create_device_rejects_duplex (desc : DeviceDesc)
    (channels : api.Channels) (env : CreateEnv)
    (h1 : channels.input ≠ 0) (h2 : channels.output ≠ 0) :
    create_device desc channels env = (Outcome.err api.Error.validation, []) := by
  unfold create_device
  rw [if_pos ⟨h1, h2⟩]

/-- Witness for C3 at a concrete duplex request. -/
theorem C3_create_device_rejects_duplex_witness :
    ({ input := 1, output := 2 } : api.Channels).input ≠ 0 ∧
    ({ input := 1, output := 2 } : api.Channels).output ≠ 0 ∧
    create_device sampleDeviceDescF32 { input := 1, output := 2 } sampleCreateEnv =
      (Outcome.err api.Error.validation, []) :=
  ⟨by decide, by decide,
   C3_create_device_rejects_duplex sampleDeviceDescF32
     { input := 1, output := 2 } sampleCreateEnv (by decide) (by decide)⟩

/-- C4 counterexample: a valid input-direction request (F32 format, only
`channels.input` non-empty) does not return a bound Device — the code
resolves the capture service handle and then hits `unimplemented!()`,
i.e. it panics. -/
theorem C4_counterexample_input_direction_panics :
    create_device sampleDeviceDescF32 { input := 1, output := 0 } sampleCreateEnv =
      (Outcome.panicked,
       [Alloc.fenceCreate, Alloc.clientStreamOpen, Alloc.setEventHandle,
        Alloc.captureService]) := by
  decide

/-- C4 amended: for a valid non-duplex output-direction request (F32
format, decodable mix format) `create_device` resolves the render
service handle and returns a bound Device with its StreamProperties
snapshot; for an input-direction request it resolves the capture
service handle and then panics (the input stream construction is
unimplemented) instead of returning a Device. -/
theorem C4_amended_output_ok_input_panics :
    (∀ (desc : DeviceDesc) (channels : api.Channels) (env : CreateEnv)
       (mix_desc : api.FrameDesc),
      channels.input = 0 → channels.output ≠ 0 →
      desc.sample_desc.format = api.Format.f32 →
      map_waveformat env.mix_format = Except.ok mix_desc →
      create_device desc channels env =
        (Outcome.ok
           { fence := { manual_reset := false, initial_state := false }
             device_stream := DeviceStream.output env.buffer_size
             stream :=
               { properties :=
                   { channels := mix_desc.channels
                     sample_rate := mix_desc.sample_rate
                     buffer_size := env.buffer_size } } },
         [Alloc.fenceCreate, Alloc.clientStreamOpen, Alloc.setEventHandle,
          Alloc.renderService])) ∧
    (∀ (desc : DeviceDesc) (channels : api.Channels) (env : CreateEnv),
      channels.input ≠ 0 → channels.output = 0 →
      desc.sample_desc.format = api.Format.f32 →
      create_device desc channels env =
        (Outcome.panicked,
         [Alloc.fenceCreate, Alloc.clientStreamOpen, Alloc.setEventHandle,
          Alloc.captureService])) := by
  constructor
  · intro desc channels env mix_desc hin hout hf hmix
    unfold create_device
    rw [if_neg (by simp [hin])]
    simp [map_frame_desc, hin, hf, hmix]
  · intro desc channels env hin hout hf
    unfold create_device
    rw [if_neg (by simp [hout])]
    simp [map_frame_desc, hin, hf]

/-- Witness for the amended C4 at concrete output- and input-direction
requests. -/
theorem C4_amended_output_ok_input_panics_witness :
    create_device sampleDeviceDescF32 { input := 0, output := 3 } sampleCreateEnv =
      (Outcome.ok
         { fence := { manual_reset := false, initial_state := false }
           device_stream := DeviceStream.output 256
           stream :=
             { properties :=
                 { channels := 3, sample_rate := 44100, buffer_size := 256 } } },
       [Alloc.fenceCreate, Alloc.clientStreamOpen, Alloc.setEventHandle,
        Alloc.renderService]) ∧
    create_device sampleDeviceDescF32 { input := 3, output := 0 } sampleCreateEnv =
      (Outcome.panicked,
       [Alloc.fenceCreate, Alloc.clientStreamOpen, Alloc.setEventHandle,
        Alloc.captureService]) :=
  ⟨C4_amended_output_ok_input_panics.1 sampleDeviceDescF32
     { input := 0, output := 3 } sampleCreateEnv
     { format := api.Format.f32, channels := 3, sample_rate := 44100 }
     rfl (by decide) rfl rfl,
   C4_amended_output_ok_input_panics.2 sampleDeviceDescF32
     { input := 3, output := 0 } sampleCreateEnv (by decide) rfl rfl⟩

/-- C5: the negotiator's encode returns `None` for `U32` — but the
claim's second half fails on the code: `create_device` with a `U32`
format does not surface `Validation`; the `unwrap()` on the `None`
panics (after the Fence was already created). -/
theorem C5_u32_format_panics_not_validation :
    map_frame_desc { format := api.Format.u32, channels := 3, sample_rate := 48000 } =
      Outcome.ok none ∧
    (create_device sampleDeviceDescU32 { input := 0, output := 3 } sampleCreateEnv).1 =
      Outcome.panicked ∧
    (create_device sampleDeviceDescU32 { input := 0, output := 3 } sampleCreateEnv).2 =
      [Alloc.fenceCreate] ∧
    (create_device sampleDeviceDescU32 { input := 0, output := 3 } sampleCreateEnv).1 ≠
      Outcome.err api.Error.validation := by
  refine ⟨rfl, by decide, by decide, by decide⟩

/-- C6: the claim says the default-device query fails with `NotFound`
when the OS reports an id absent from the registry.  On the code this
fails: the lookup `self.physical_devices[&id]` panics on a missing key
(and the function's return type could not even carry `NotFound`).  The
resolution of a present id, and the `None` answer for a null OS device,
behave as described. -/
theorem C6_default_device_unknown_id_panics :
    default_physical_input_device [] (some "dev0") = Outcome.panicked ∧
    default_physical_input_device [] (some "dev0") ≠
      Outcome.err api.Error.notFound ∧
    default_physical_output_device [] (some "dev0") = Outcome.panicked ∧
    default_physical_input_device
        [("dev0", newPhysicalDevice DEVICE_STATE_ACTIVE 1)] (some "dev0") =
      Outcome.ok (some (newPhysicalDevice DEVICE_STATE_ACTIVE 1)) ∧
    default_physical_input_device [] none = Outcome.ok none := by
  refine ⟨rfl, by decide, rfl, by decide, rfl⟩

/-- C7: for all per-direction enumeration result lists, an id present
in both the capture pass and the render pass yields exactly one
registry entry whose capability flags are `INPUT ||| OUTPUT`, and
(when the recorded state is active) `enumerate_physical_devices`
returns exactly one entry for that id. -/
theorem C7_capture_render_merge (capture render : List (String × Nat))
    (id : String) (s1 s2 : Nat)
    (hc : firstState capture id = some s1)
    (hr : firstState render id = some s2)
    (hactive : s1 &&& DEVICE_STATE_ACTIVE ≠ 0) :
    countKey (instance_registry capture render) id = 1 ∧
    (lookupReg (instance_registry capture render) id).map PhysicalDevice.streams =
      some (api.StreamFlags.INPUT ||| api.StreamFlags.OUTPUT) ∧
    countKey (enumerate_physical_devices (instance_registry capture render)) id = 1 := by
  have hlook1 : lookupReg
      (enumerate_physical_devices_by_flow [] capture api.StreamFlags.INPUT) id =
      some (newPhysicalDevice s1 api.StreamFlags.INPUT) :=
    lookupReg_enumFlow_mem_none capture [] _ id s1 hc rfl
  have hlook2 : lookupReg (instance_registry capture render) id =
      some { newPhysicalDevice s1 api.StreamFlags.INPUT with
             streams := (newPhysicalDevice s1 api.StreamFlags.INPUT).streams |||
               api.StreamFlags.OUTPUT } := by
    unfold instance_registry
    exact lookupReg_enumFlow_mem_some render _ _ id _ (by simp [hr]) hlook1
  have hcount : countKey (instance_registry capture render) id = 1 := by
    unfold instance_registry
    rw [countKey_enumFlow, countKey_enumFlow]
    simp [hc, hr, countKey_nil]
  refine ⟨hcount, ?_, ?_⟩
  · rw [hlook2]
    simp [newPhysicalDevice]
  · exact countKey_enumerate_active _ _ _ hcount hlook2
      (by simpa [newPhysicalDevice] using hactive)

/-- Witness for C7 with one device discovered in both passes. -/
theorem C7_capture_render_merge_witness :
    firstState [("dev0", 1)] "dev0" = some 1 ∧
    1 &&& DEVICE_STATE_ACTIVE ≠ 0 ∧
    countKey (instance_registry [("dev0", 1)] [("dev0", 1)]) "dev0" = 1 ∧
    (lookupReg (instance_registry [("dev0", 1)] [("dev0", 1)]) "dev0").map
        PhysicalDevice.streams =
      some (api.StreamFlags.INPUT ||| api.StreamFlags.OUTPUT) ∧
    countKey
        (enumerate_physical_devices (instance_registry [("dev0", 1)] [("dev0", 1)]))
        "dev0" = 1 := by
  have h := C7_capture_render_merge [("dev0", 1)] [("dev0", 1)] "dev0" 1 1
    (by decide) (by decide) (by decide)
  exact ⟨by decide, by decide, h.1, h.2.1, h.2.2⟩

/-- C8: for an output Device whose negotiated capacity dominates the
backend padding, `submit_buffers` acquires exactly
`capacity - padding` frames, passes that count to the callback, never
exceeds the negotiated buffer capacity, and releases exactly the count
reported at acquire. -/
theorem C8_output_frames_capacity (d : Device) (env : RtEnv) (t cap : Nat)
    (hds : d.device_stream = DeviceStream.output cap)
    (hcap : d.stream.properties.buffer_size = cap)
    (hlt : cap < 2 ^ 32) (hpad : env.padding ≤ cap) :
    (submit_buffers d env t).callback_frames = some (cap - env.padding) ∧
    (submit_buffers d env t).released_frames = some (cap - env.padding) ∧
    cap - env.padding ≤ d.stream.properties.buffer_size ∧
    (submit_buffers d env t).result = Outcome.ok () := by
  have hw : u32_wrap_sub cap env.padding = cap - env.padding := by
    unfold u32_wrap_sub
    omega
  have hsub : submit_buffers d env t =
      { result := Outcome.ok ()
        callback_frames := some (cap - env.padding)
        released_frames := some (cap - env.padding) } := by
    simp [submit_buffers, acquire_buffers, hds, hw, release_buffers, fence_wait]
  refine ⟨by rw [hsub], by rw [hsub], ?_, by rw [hsub]⟩
  rw [hcap]
  omega

/-- Witness for C8 at a 256-frame device with 100 frames of padding. -/
theorem C8_output_frames_capacity_witness :
    (submit_buffers sampleOutputDevice timedOutEnv 0).callback_frames = some 156 ∧
    (submit_buffers sampleOutputDevice timedOutEnv 0).released_frames = some 156 ∧
    (submit_buffers sampleOutputDevice timedOutEnv 0).result = Outcome.ok () := by
  have h := C8_output_frames_capacity sampleOutputDevice timedOutEnv 0 256
    rfl rfl (by norm_num) (by decide)
  exact ⟨by simpa using h.1, by simpa using h.2.1, h.2.2.2⟩

/-- C9: encoding the FrameDesc (F32, FRONT_LEFT | FRONT_RIGHT, 48000)
to a native descriptor and decoding that descriptor back yields a
FrameDesc equal to the original. -/
theorem C9_frame_desc_roundtrip :
    map_frame_desc frameDescStereo48k = Outcome.ok (some wfxStereo48k) ∧
    map_waveformat wfxStereo48k = Except.ok frameDescStereo48k :=
  ⟨rfl, rfl⟩

/-- C10: in the output branch of `acquire_buffers` the acquired length
is the unchecked 32-bit subtraction `buffer_size - padding`: when the
padding does not exceed the capacity the checked (debug) subtraction
succeeds and the result is the true difference, bounded by the
capacity; when it does exceed, the checked subtraction panics (`none`)
and the wrapping (release) result exceeds the capacity. -/
theorem C10_unchecked_sub_precondition (d : Device) (env : RtEnv) (t cap : Nat)
    (hds : d.device_stream = DeviceStream.output cap)
    (hcap : cap < 2 ^ 32) (hpad : env.padding < 2 ^ 32) :
    (env.padding ≤ cap →
      acquire_buffers d env t = Outcome.ok { frames := cap - env.padding } ∧
      u32_checked_sub cap env.padding = some (cap - env.padding) ∧
      cap - env.padding ≤ cap) ∧
    (cap < env.padding →
      acquire_buffers d env t = Outcome.ok { frames := cap + 2 ^ 32 - env.padding } ∧
      u32_checked_sub cap env.padding = none ∧
      cap < cap + 2 ^ 32 - env.padding) := by
  constructor
  · intro h
    have hw : u32_wrap_sub cap env.padding = cap - env.padding := by
      unfold u32_wrap_sub
      omega
    refine ⟨by simp [acquire_buffers, hds, hw, fence_wait], ?_, by omega⟩
    simp [u32_checked_sub, h]
  · intro h
    have hw : u32_wrap_sub cap env.padding = cap + 2 ^ 32 - env.padding := by
      unfold u32_wrap_sub
      omega
    refine ⟨by simp [acquire_buffers, hds, hw, fence_wait], ?_, by omega⟩
    rw [u32_checked_sub, if_neg (by omega)]

/-- Witness for C10: padding 100 on a 256-frame device is well-defined;
padding 300 wraps past the capacity and the checked subtraction
fails. -/
theorem C10_unchecked_sub_precondition_witness :
    acquire_buffers sampleOutputDevice
        { wait_result := 0, packet_frames := 0, padding := 100 } 0 =
      Outcome.ok { frames := 156 } ∧
    u32_checked_sub 256 100 = some 156 ∧
    acquire_buffers sampleOutputDevice
        { wait_result := 0, packet_frames := 0, padding := 300 } 0 =
      Outcome.ok { frames := 256 + 2 ^ 32 - 300 } ∧
    u32_checked_sub 256 300 = none := by
  have h1 := (C10_unchecked_sub_precondition sampleOutputDevice
    { wait_result := 0, packet_frames := 0, padding := 100 } 0 256
    rfl (by norm_num) (by norm_num)).1 (by norm_num)
  have h2 := (C10_unchecked_sub_precondition sampleOutputDevice
    { wait_result := 0, packet_frames := 0, padding := 300 } 0 256
    rfl (by norm_num) (by norm_num)).2 (by norm_num)
  exact ⟨by simpa using h1.1, by simpa using h1.2.1, h2.1, h2.2.1⟩

end audir
